import Mathlib

/-!
Verification development for a thin data-access shim (class PG in
aqtlib/pg.py) over an asynchronous PostgreSQL driver with a
SQLAlchemy-based literalization path.  The Python source is shallowly
embedded below: the instance state of class PG becomes `PGState`, the
external collaborators (asyncpg, SQLAlchemy engine DDL) become an explicit
`Driver` record of call-outs, side effects (log lines, DDL issuance,
driver calls) become an explicit `Event` trace, and exceptions become
`Except PGError`.
-/

namespace Aqtlib

/-! ## Literalization value rendering (StringLiteral.literal_processor) -/

/-- Output of the base literal escaper of the dialect (called
super_processor in the source): either text, or a raw byte sequence
(modelled as a list of byte values). -/
inductive EscOut where
  | txt (s : String)
  | bytes (bs : List Nat)
  deriving DecidableEq, Repr

/-- Pieces of the SQLAlchemy dialect that the processing closure consults:
the base literal escaper inherited from String.literal_processor, and the
decoding of a byte sequence under the declared text encoding of the
dialect (result.decode(dialect.encoding)). -/
structure SADialect where
  superProcessor : String → EscOut
  decode : List Nat → String

/-- A Python value reaching the processing closure: an integer, a text
string, or any other value together with its text form str(value) (for
example the rendering of a datetime). -/
inductive SAValue where
  | vint (n : Int)
  | vstr (s : String)
  | vother (textForm : String)
  deriving DecidableEq, Repr

/-- Model of the inner process(value) closure of
StringLiteral.literal_processor, line by line from the source:
if isinstance(value, int): return str(value);
if not isinstance(value, str): value = str(value);
result = super_processor(value);
if isinstance(result, bytes): result = result.decode(dialect.encoding);
return result. -/
def stringLiteralProcess (d : SADialect) (v : SAValue) : String :=
  match v with
  | .vint n => toString n
  | .vstr s =>
    match d.superProcessor s with
    | .txt r => r
    | .bytes bs => d.decode bs
  | .vother t =>
    match d.superProcessor t with
    | .txt r => r
    | .bytes bs => d.decode bs

/-- Rendering rules exactly as the specification words them, in order:
integers render as their decimal text form; all other non-text values are
first converted to their text form; the base literal escaper of the
dialect is then applied; if the output of the escaper is a raw byte
sequence it is decoded using the declared text encoding of the dialect
before being embedded. -/
def specLiteralRender (d : SADialect) (v : SAValue) : String :=
  match v with
  | .vint n => toString n
  | _ =>
    let t : String :=
      match v with
      | .vint n => toString n
      | .vstr s => s
      | .vother textForm => textForm
    match d.superProcessor t with
    | .txt r => r
    | .bytes bs => d.decode bs

/-! ## The PG class: state, driver, events, errors -/

/-- A structured (non-raw-text) query object.  Its compilation under the
literal dialect (query.compile(dialect=..., compile_kwargs=...).string) is
performed by external SQLAlchemy code; we carry the resulting literal SQL
text as data. -/
structure StructuredQuery where
  compiledLiteral : String
  deriving DecidableEq, Repr

/-- Opaque schema metadata token (the caller-owned SQLAlchemy MetaData);
we never inspect it, only hand it to the DDL call-outs of the driver. -/
structure MetaData where
  id : Nat
  deriving DecidableEq, Repr

/-- The synchronous SQLAlchemy engine; create_engine(self._dsn) records
the connection string it was created from. -/
structure Engine where
  dsn : String
  deriving DecidableEq, Repr

/-- The asyncpg connection pool: the connection string it was created from
(the source passes self._dsn even when it is None), its count of available
connections, and whether it has been closed. -/
structure Pool where
  dsn : Option String
  available : Nat
  closed : Bool
  deriving DecidableEq, Repr

/-- Which driver query method an operation delegates to. -/
inductive Method where
  | fetchval | fetch | fetchrow | execute
  deriving DecidableEq, Repr

/-- One call into the execution path of the driver: the method, the SQL
text, the positional arguments, the column index (fetchval only), and the
timeout, all as passed by the source. -/
structure DriverCall where
  method : Method
  query : String
  args : List String
  column : Option Nat
  timeout : Option Nat
  deriving DecidableEq, Repr

/-- Observable side effects of the embedded code, in order of occurrence:
DDL issuance against an engine (recording the connection string of that
engine), the two log lines of close, pool construction (recording the
connection string handed to asyncpg.create_pool), the debug log of the
literalized SQL, and calls into the execution path of the driver. -/
inductive Event where
  | createTablesDDL (engineDsn : String)
  | dropTablesDDL (engineDsn : String)
  | warnAlreadyClosed
  | debugPoolClosed
  | poolCreated (dsn : Option String)
  | logDebugLiteral (s : String)
  | driverExec (c : DriverCall)
  deriving DecidableEq, Repr

/-- Errors surfacing from the embedded code.  The source defines no error
classes of its own; these are the exceptions its statements raise:
attributeErrorNoneMetadata is the Python AttributeError from
None.create_all / None.drop_all when _metadata is unbound;
argumentErrorNoneDsn is the SQLAlchemy error from create_engine(None);
interfaceErrorPoolClosed is the asyncpg InterfaceError from acquiring on a
closed pool; acquireBlocked models acquisition with no available
connection; internalNoPool is an unreachable guard; driver carries an
arbitrary error surfaced unchanged from a driver call-out. -/
inductive PGError where
  | attributeErrorNoneMetadata
  | argumentErrorNoneDsn
  | interfaceErrorPoolClosed
  | acquireBlocked
  | internalNoPool
  | driver (s : String)
  deriving DecidableEq, Repr

/-- External collaborators the class calls out to: asyncpg create_pool,
SQLAlchemy MetaData.create_all and drop_all, and the driver-side execution
of one query call (its result rendered as a driver-defined string). -/
structure Driver where
  createPool : Option String → Except PGError Pool
  createAll : MetaData → Engine → Except PGError Unit
  dropAll : MetaData → Engine → Except PGError Unit
  exec : DriverCall → Except PGError String

/-- Instance state of class PG: the slots _dsn, _metadata, _engine, _pool,
each None after construction. -/
structure PGState where
  dsn : Option String
  metadata : Option MetaData
  engine : Option Engine
  pool : Option Pool
  deriving DecidableEq, Repr

/-- Model of PG.__init__: every slot is None. -/
def initialState : PGState :=
  { dsn := none, metadata := none, engine := none, pool := none }

/-! ## Queries and literalization -/

/-- The query argument of the four query operations: either raw SQL text
(isinstance(query, str)) or a structured query object. -/
inductive Query where
  | raw (s : String)
  | structured (sq : StructuredQuery)
  deriving DecidableEq, Repr

/-- Model of PG._literalquery: compiles the structured query under the
literal dialect (carried as data on `StructuredQuery`), logs the literal
text at debug level, and returns it. -/
def literalquery (sq : StructuredQuery) : String × List Event :=
  (sq.compiledLiteral, [Event.logDebugLiteral sq.compiledLiteral])

/-! ## Engine and DDL (engine property, create_tables, drop_tables, init) -/

/-- Model of the engine property: if self._engine is None, set self._engine
= create_engine(self._dsn), then return the cached engine.
create_engine(None) raises (SQLAlchemy rejects a None URL). -/
def getEngine (st : PGState) : Except PGError (PGState × Engine) :=
  match st.engine with
  | some e => .ok (st, e)
  | none =>
    match st.dsn with
    | none => .error .argumentErrorNoneDsn
    | some d =>
      let e : Engine := { dsn := d }
      .ok ({ st with engine := some e }, e)

/-- Model of PG.create_tables: self._metadata.create_all(self.engine)
followed by a debug log.  Accessing create_all on an unbound (None)
metadata raises an AttributeError; otherwise the engine property is forced
and the DDL is issued against it (recorded as a `createTablesDDL` event
carrying the connection string of that engine), surfacing any driver error
unchanged. -/
def create_tables (drv : Driver) (st : PGState) :
    PGState × List Event × Except PGError Unit :=
  match st.metadata with
  | none => (st, [], .error .attributeErrorNoneMetadata)
  | some md =>
    match getEngine st with
    | .error e => (st, [], .error e)
    | .ok (st1, eng) =>
      match drv.createAll md eng with
      | .error e => (st1, [Event.createTablesDDL eng.dsn], .error e)
      | .ok _ => (st1, [Event.createTablesDDL eng.dsn], .ok ())

/-- Model of PG.drop_tables: self._metadata.drop_all(self.engine) followed
by a debug log; same shape as `create_tables`. -/
def drop_tables (drv : Driver) (st : PGState) :
    PGState × List Event × Except PGError Unit :=
  match st.metadata with
  | none => (st, [], .error .attributeErrorNoneMetadata)
  | some md =>
    match getEngine st with
    | .error e => (st, [], .error e)
    | .ok (st1, eng) =>
      match drv.dropAll md eng with
      | .error e => (st1, [Event.dropTablesDDL eng.dsn], .error e)
      | .ok _ => (st1, [Event.dropTablesDDL eng.dsn], .ok ())

/-- Model of PG.init: binds self._dsn = dsn and self._metadata = metadata,
then immediately calls self.create_tables(). -/
def init (drv : Driver) (st : PGState) (dsn : String) (md : MetaData) :
    PGState × List Event × Except PGError Unit :=
  create_tables drv { st with dsn := some dsn, metadata := some md }

/-! ## Pool lifecycle (connection, _connect, close) -/

/-- Model of PG._connect: self._pool = await asyncpg.create_pool(self._dsn)
followed by a debug log.  A failure of the pool construction propagates
unchanged and leaves _pool unset. -/
def connectPool (drv : Driver) (st : PGState) :
    Except PGError (PGState × List Event) :=
  match drv.createPool st.dsn with
  | .error e => .error e
  | .ok p => .ok ({ st with pool := some p }, [Event.poolCreated st.dsn])

/-- Model of the block: async with self._pool.acquire() as conn: yield
conn.  Acquiring on a closed pool raises the interface error of the
driver; otherwise one available connection is checked out for the
duration of the body and returned on every exit path, normal or
exceptional, as the async-with block guarantees.  The body is the work
done while holding the connection: its events and its result (which may
be an error). -/
def acquireScope (st1 : PGState) (evs1 : List Event)
    (body : List Event × Except PGError String) :
    PGState × List Event × Except PGError String :=
  match st1.pool with
  | none => (st1, evs1, .error .internalNoPool)
  | some p =>
    if p.closed then (st1, evs1, .error .interfaceErrorPoolClosed)
    else if p.available = 0 then (st1, evs1, .error .acquireBlocked)
    else
      let pAcq : Pool := { p with available := p.available - 1 }
      let pRel : Pool := { pAcq with available := pAcq.available + 1 }
      ({ st1 with pool := some pRel }, evs1 ++ body.1, body.2)

/-- Model of PG.connection, the scoped-acquisition context manager:
if not self._pool: await self._connect() (a None pool is falsy; a pool
object, even a closed one, is truthy), then the `acquireScope` block. -/
def connection (drv : Driver) (st : PGState)
    (body : List Event × Except PGError String) :
    PGState × List Event × Except PGError String :=
  match st.pool with
  | some _ => acquireScope st [] body
  | none =>
    match connectPool drv st with
    | .error e => (st, [], .error e)
    | .ok (st1, evs1) => acquireScope st1 evs1 body

/-- Model of PG.close: if not self._pool, log a warning and return;
otherwise await self._pool.close() (the driver closes every pooled
connection and marks the pool closed) and log a debug line.  Note the
source never sets self._pool = None. -/
def close (st : PGState) : PGState × List Event :=
  match st.pool with
  | none => (st, [Event.warnAlreadyClosed])
  | some p =>
    ({ st with pool := some { p with available := 0, closed := true } },
     [Event.debugPoolClosed])

/-! ## The four query operations -/

/-- Model of PG.fetchval: if not isinstance(query, str), replace query
with self._literalquery(query); then within a scoped connection delegate
to conn.fetchval(query, *args, column=column, timeout=timeout). -/
def fetchval (drv : Driver) (st : PGState) (q : Query) (args : List String)
    (column : Nat) (timeout : Option Nat) :
    PGState × List Event × Except PGError String :=
  let (qtext, evq) :=
    match q with
    | .raw s => (s, ([] : List Event))
    | .structured sq => literalquery sq
  let call : DriverCall :=
    { method := .fetchval, query := qtext, args := args,
      column := some column, timeout := timeout }
  let (st1, evs, res) := connection drv st ([Event.driverExec call], drv.exec call)
  (st1, evq ++ evs, res)

/-- Model of PG.fetch: literalize a non-text query, then within a scoped
connection delegate to conn.fetch(query, *args, timeout=timeout). -/
def fetch (drv : Driver) (st : PGState) (q : Query) (args : List String)
    (timeout : Option Nat) :
    PGState × List Event × Except PGError String :=
  let (qtext, evq) :=
    match q with
    | .raw s => (s, ([] : List Event))
    | .structured sq => literalquery sq
  let call : DriverCall :=
    { method := .fetch, query := qtext, args := args,
      column := none, timeout := timeout }
  let (st1, evs, res) := connection drv st ([Event.driverExec call], drv.exec call)
  (st1, evq ++ evs, res)

/-- Model of PG.fetchrow: literalize a non-text query, then within a
scoped connection delegate to conn.fetchrow(query, *args,
timeout=timeout). -/
def fetchrow (drv : Driver) (st : PGState) (q : Query) (args : List String)
    (timeout : Option Nat) :
    PGState × List Event × Except PGError String :=
  let (qtext, evq) :=
    match q with
    | .raw s => (s, ([] : List Event))
    | .structured sq => literalquery sq
  let call : DriverCall :=
    { method := .fetchrow, query := qtext, args := args,
      column := none, timeout := timeout }
  let (st1, evs, res) := connection drv st ([Event.driverExec call], drv.exec call)
  (st1, evq ++ evs, res)

/-- Model of PG.execute: literalize a non-text query, then within a scoped
connection delegate to conn.execute(query, *args, timeout=timeout). -/
def execute (drv : Driver) (st : PGState) (q : Query) (args : List String)
    (timeout : Option Nat) :
    PGState × List Event × Except PGError String :=
  let (qtext, evq) :=
    match q with
    | .raw s => (s, ([] : List Event))
    | .structured sq => literalquery sq
  let call : DriverCall :=
    { method := .execute, query := qtext, args := args,
      column := none, timeout := timeout }
  let (st1, evs, res) := connection drv st ([Event.driverExec call], drv.exec call)
  (st1, evq ++ evs, res)

/-! ## Trace helpers and test fixtures -/

/-- SQL text the four operations hand to the driver: raw text passes
through; a structured query is replaced by its literalized text. -/
def normalizeQuery : Query → String
  | .raw s => s
  | .structured sq => sq.compiledLiteral

/-- Events emitted by the normalization step alone. -/
def normalizeEvents : Query → List Event
  | .raw _ => []
  | .structured sq => [Event.logDebugLiteral sq.compiledLiteral]

/-- Number of pool constructions recorded on a trace. -/
def countPoolCreated (evs : List Event) : Nat :=
  evs.countP fun e => match e with | .poolCreated _ => true | _ => false

/-- Number of create_all DDL issuances recorded on a trace. -/
def countCreateTables (evs : List Event) : Nat :=
  evs.countP fun e => match e with | .createTablesDDL _ => true | _ => false

/-- A healthy external environment: pool construction succeeds with ten
open connections, DDL succeeds, and every driver call returns a status. -/
def testDriver : Driver :=
  { createPool := fun d => .ok { dsn := d, available := 10, closed := false }
    createAll := fun _ _ => .ok ()
    dropAll := fun _ _ => .ok ()
    exec := fun _ => .ok "ok" }

/-- An environment whose query execution always fails, for exercising the
exceptional exit path of the connection scope. -/
def failingExecDriver : Driver :=
  { testDriver with exec := fun _ => .error (.driver "query failed") }

/-- A concrete open pool holding ten connections. -/
def poolOpen : Pool :=
  { dsn := some "postgres://db", available := 10, closed := false }

/-- A concrete initialized state whose pool is already connected. -/
def stPoolOpen : PGState :=
  { dsn := some "postgres://db", metadata := some { id := 0 },
    engine := some { dsn := "postgres://db" }, pool := some poolOpen }

/-- A concrete initialized state whose pool is not yet constructed. -/
def stNoPool : PGState :=
  { dsn := some "postgres://db", metadata := some { id := 0 },
    engine := some { dsn := "postgres://db" }, pool := none }

/-! ## Helper lemmas -/

/-- Releasing right after acquiring restores the available-connection
count of a pool that had at least one connection available. -/
theorem pool_restore (p : Pool) (ha : 0 < p.available) :
    ({ p with available := p.available - 1 + 1 } : Pool) = p := by
  obtain ⟨d, a, c⟩ := p
  change 0 < a at ha
  simp only [Pool.mk.injEq, and_true, true_and]
  omega

/-- Writing back the pool a state already holds leaves the state
unchanged. -/
theorem state_set_pool_self (st : PGState) (p : Pool) (hp : st.pool = some p) :
    ({ st with pool := some p } : PGState) = st := by
  cases st
  simp_all

/-- Behaviour of the acquire block on an open pool with an available
connection: the body runs, and the state keeps the same pool. -/
theorem acquireScope_open (st1 : PGState) (evs1 : List Event)
    (body : List Event × Except PGError String) (p : Pool)
    (hp : st1.pool = some p) (hc : p.closed = false) (ha : 0 < p.available) :
    acquireScope st1 evs1 body =
      ({ st1 with pool := some p }, evs1 ++ body.1, body.2) := by
  obtain ⟨pd, pa, pc⟩ := p
  change pc = false at hc
  change 0 < pa at ha
  subst hc
  have hne : pa ≠ 0 := by omega
  have hres : pa - 1 + 1 = pa := by omega
  simp only [acquireScope, hp]
  simp [hne, hres]

/-- Behaviour of the connection scope when the pool already exists, is
open and has an available connection: no pool construction happens, the
body runs, and the state is returned unchanged. -/
theorem connection_existing (drv : Driver) (st : PGState)
    (body : List Event × Except PGError String) (p : Pool)
    (hp : st.pool = some p) (hc : p.closed = false) (ha : 0 < p.available) :
    connection drv st body = (st, body.1, body.2) := by
  simp only [connection, hp]
  rw [acquireScope_open st [] body p hp hc ha]
  rw [state_set_pool_self st p hp]
  simp

/-- Behaviour of the connection scope when no pool exists yet and the
driver constructs an open pool: the pool is recorded on the state, its
construction is recorded on the trace, and the body runs. -/
theorem connection_fresh (drv : Driver) (st : PGState)
    (body : List Event × Except PGError String) (p : Pool)
    (hn : st.pool = none) (hcp : drv.createPool st.dsn = .ok p)
    (hc : p.closed = false) (ha : 0 < p.available) :
    connection drv st body =
      ({ st with pool := some p }, Event.poolCreated st.dsn :: body.1, body.2) := by
  simp only [connection, connectPool, hn, hcp]
  rw [acquireScope_open _ _ body p rfl hc ha]
  simp

/-- Under an open pool with an available connection, fetchval normalizes
the query, delegates the normalized text, the positional arguments, the
column index and the timeout to the fetchval call of the driver, and
restores the state. -/
theorem fetchval_existing (drv : Driver) (st : PGState) (q : Query)
    (args : List String) (col : Nat) (t : Option Nat) (p : Pool)
    (hp : st.pool = some p) (hc : p.closed = false) (ha : 0 < p.available) :
    fetchval drv st q args col t =
      (st,
       normalizeEvents q ++ [Event.driverExec
         { method := .fetchval, query := normalizeQuery q, args := args,
           column := some col, timeout := t }],
       drv.exec { method := .fetchval, query := normalizeQuery q, args := args,
                  column := some col, timeout := t }) := by
  cases q with
  | raw s =>
    simp only [fetchval, normalizeEvents, normalizeQuery]
    rw [connection_existing drv st _ p hp hc ha]
  | structured sq =>
    simp only [fetchval, literalquery, normalizeEvents, normalizeQuery]
    rw [connection_existing drv st _ p hp hc ha]

/-- Under an open pool with an available connection, fetch normalizes the
query and delegates the normalized text, arguments and timeout to the
fetch call of the driver, restoring the state. -/
theorem fetch_existing (drv : Driver) (st : PGState) (q : Query)
    (args : List String) (t : Option Nat) (p : Pool)
    (hp : st.pool = some p) (hc : p.closed = false) (ha : 0 < p.available) :
    fetch drv st q args t =
      (st,
       normalizeEvents q ++ [Event.driverExec
         { method := .fetch, query := normalizeQuery q, args := args,
           column := none, timeout := t }],
       drv.exec { method := .fetch, query := normalizeQuery q, args := args,
                  column := none, timeout := t }) := by
  cases q with
  | raw s =>
    simp only [fetch, normalizeEvents, normalizeQuery]
    rw [connection_existing drv st _ p hp hc ha]
  | structured sq =>
    simp only [fetch, literalquery, normalizeEvents, normalizeQuery]
    rw [connection_existing drv st _ p hp hc ha]

/-- Under an open pool with an available connection, fetchrow normalizes
the query and delegates the normalized text, arguments and timeout to the
fetchrow call of the driver, restoring the state. -/
theorem fetchrow_existing (drv : Driver) (st : PGState) (q : Query)
    (args : List String) (t : Option Nat) (p : Pool)
    (hp : st.pool = some p) (hc : p.closed = false) (ha : 0 < p.available) :
    fetchrow drv st q args t =
      (st,
       normalizeEvents q ++ [Event.driverExec
         { method := .fetchrow, query := normalizeQuery q, args := args,
           column := none, timeout := t }],
       drv.exec { method := .fetchrow, query := normalizeQuery q, args := args,
                  column := none, timeout := t }) := by
  cases q with
  | raw s =>
    simp only [fetchrow, normalizeEvents, normalizeQuery]
    rw [connection_existing drv st _ p hp hc ha]
  | structured sq =>
    simp only [fetchrow, literalquery, normalizeEvents, normalizeQuery]
    rw [connection_existing drv st _ p hp hc ha]

/-- Under an open pool with an available connection, execute normalizes
the query and delegates the normalized text, arguments and timeout to the
execute call of the driver, restoring the state. -/
theorem execute_existing (drv : Driver) (st : PGState) (q : Query)
    (args : List String) (t : Option Nat) (p : Pool)
    (hp : st.pool = some p) (hc : p.closed = false) (ha : 0 < p.available) :
    execute drv st q args t =
      (st,
       normalizeEvents q ++ [Event.driverExec
         { method := .execute, query := normalizeQuery q, args := args,
           column := none, timeout := t }],
       drv.exec { method := .execute, query := normalizeQuery q, args := args,
                  column := none, timeout := t }) := by
  cases q with
  | raw s =>
    simp only [execute, normalizeEvents, normalizeQuery]
    rw [connection_existing drv st _ p hp hc ha]
  | structured sq =>
    simp only [execute, literalquery, normalizeEvents, normalizeQuery]
    rw [connection_existing drv st _ p hp hc ha]

/-- With no pool yet and a driver that constructs an open pool, fetchval
records the pool construction (with the bound connection string) on its
trace and delegates to the driver within the new pool. -/
theorem fetchval_fresh (drv : Driver) (st : PGState) (q : Query)
    (args : List String) (col : Nat) (t : Option Nat) (p : Pool)
    (hn : st.pool = none) (hcp : drv.createPool st.dsn = .ok p)
    (hc : p.closed = false) (ha : 0 < p.available) :
    fetchval drv st q args col t =
      ({ st with pool := some p },
       normalizeEvents q ++ Event.poolCreated st.dsn :: [Event.driverExec
         { method := .fetchval, query := normalizeQuery q, args := args,
           column := some col, timeout := t }],
       drv.exec { method := .fetchval, query := normalizeQuery q, args := args,
                  column := some col, timeout := t }) := by
  cases q with
  | raw s =>
    simp only [fetchval, normalizeEvents, normalizeQuery]
    rw [connection_fresh drv st _ p hn hcp hc ha]
  | structured sq =>
    simp only [fetchval, literalquery, normalizeEvents, normalizeQuery]
    rw [connection_fresh drv st _ p hn hcp hc ha]

/-- A list of normalization events records no pool construction. -/
theorem countPoolCreated_normalize (q : Query) :
    countPoolCreated (normalizeEvents q) = 0 := by
  cases q <;> rfl

/-- Pool-construction counting distributes over trace concatenation. -/
theorem countPoolCreated_append (a b : List Event) :
    countPoolCreated (a ++ b) = countPoolCreated a + countPoolCreated b := by
  simp [countPoolCreated, List.countP_append]

/-- DDL counting distributes over trace concatenation. -/
theorem countCreateTables_append (a b : List Event) :
    countCreateTables (a ++ b) = countCreateTables a + countCreateTables b := by
  simp [countCreateTables, List.countP_append]

/-- Behaviour of the connection scope on a state whose pool object is
closed: since the pool slot is truthy no reconstruction is attempted, and
acquisition raises the interface error of the driver without running the
body. -/
theorem connection_closed (drv : Driver) (st : PGState)
    (body : List Event × Except PGError String) (p : Pool)
    (hp : st.pool = some p) (hc : p.closed = true) :
    connection drv st body = (st, [], .error .interfaceErrorPoolClosed) := by
  simp only [connection, hp, acquireScope]
  simp [hc]

/-- On a state whose pool object is closed, fetchval performs only the
normalization step and then fails acquiring; no pool is constructed and
no driver call happens. -/
theorem fetchval_closed (drv : Driver) (st : PGState) (q : Query)
    (args : List String) (col : Nat) (t : Option Nat) (p : Pool)
    (hp : st.pool = some p) (hc : p.closed = true) :
    fetchval drv st q args col t =
      (st, normalizeEvents q, .error .interfaceErrorPoolClosed) := by
  cases q with
  | raw s =>
    simp only [fetchval, normalizeEvents]
    rw [connection_closed drv st _ p hp hc]
    simp
  | structured sq =>
    simp only [fetchval, literalquery, normalizeEvents]
    rw [connection_closed drv st _ p hp hc]
    simp

/-- Every call to init records exactly one create_all DDL issuance on its
trace, whatever the prior state and the DDL outcome. -/
theorem init_trace_single (drv : Driver) (st : PGState) (dsn : String)
    (md : MetaData) :
    countCreateTables (init drv st dsn md).2.1 = 1 := by
  cases he : st.engine with
  | some e =>
    cases hca : drv.createAll md e <;>
      simp [init, create_tables, getEngine, he, hca, countCreateTables,
        List.countP_cons, List.countP_nil]
  | none =>
    cases hca : drv.createAll md ({ dsn := dsn } : Engine) <;>
      simp [init, create_tables, getEngine, he, hca, countCreateTables,
        List.countP_cons, List.countP_nil]

/-- State after init on an instance with no cached engine: the connection
string and metadata are bound and a fresh engine recording that connection
string is cached. -/
theorem init_state_fresh_engine (drv : Driver) (st : PGState) (dsn : String)
    (md : MetaData) (he : st.engine = none) :
    (init drv st dsn md).1 =
      { st with dsn := some dsn, metadata := some md,
                engine := some { dsn := dsn } } := by
  cases hca : drv.createAll md ({ dsn := dsn } : Engine) <;>
    simp [init, create_tables, getEngine, he, hca]

/-- State after init on an instance with a cached engine: the connection
string and metadata are rebound but the engine slot is untouched. -/
theorem init_state_cached_engine (drv : Driver) (st : PGState) (dsn : String)
    (md : MetaData) (e : Engine) (he : st.engine = some e) :
    (init drv st dsn md).1 =
      { st with dsn := some dsn, metadata := some md } := by
  cases hca : drv.createAll md e <;>
    simp [init, create_tables, getEngine, he, hca]

/-- With metadata bound and an engine cached, create_tables issues its DDL
against the cached engine, recording that engine on the trace. -/
theorem create_tables_trace (drv : Driver) (st : PGState) (md : MetaData)
    (e : Engine) (hm : st.metadata = some md) (he : st.engine = some e) :
    (create_tables drv st).2.1 = [Event.createTablesDDL e.dsn] := by
  cases hca : drv.createAll md e <;>
    simp [create_tables, getEngine, hm, he, hca]

/-- With metadata bound and an engine cached, drop_tables issues its DDL
against the cached engine, recording that engine on the trace. -/
theorem drop_tables_trace (drv : Driver) (st : PGState) (md : MetaData)
    (e : Engine) (hm : st.metadata = some md) (he : st.engine = some e) :
    (drop_tables drv st).2.1 = [Event.dropTablesDDL e.dsn] := by
  cases hca : drv.dropAll md e <;>
    simp [drop_tables, getEngine, hm, he, hca]

/-- A concrete structured query with its literalized text. -/
def sqFixture : StructuredQuery :=
  { compiledLiteral := "SELECT a FROM t WHERE b = 1" }

/-- The pool the healthy test environment constructs when handed the
unbound (None) connection string of an uninitialized instance. -/
def poolNoneDsn : Pool :=
  { dsn := none, available := 10, closed := false }

/-! ## Claims -/

/-- C1: the claim reads that the literal SQL text produced by the
Literalizer (_literalquery) is never passed into the execution path of
the driver and is used for logging only.  The code falsifies it — and
thereby contradicts the _literalquery docstring, which reads DO NOT
execute the resulting strings: when a structured query is handed to
fetchval, the very string returned by the Literalizer (here logged as a
`logDebugLiteral` event) is handed to the driver fetchval call as its SQL
text (the `driverExec` event). -/
theorem C1_literal_passed_to_driver :
    (fetchval testDriver stPoolOpen (.structured sqFixture) [] 0 none).2.1 =
      [Event.logDebugLiteral sqFixture.compiledLiteral,
       Event.driverExec
         { method := .fetchval, query := sqFixture.compiledLiteral,
           args := [], column := some 0, timeout := none }] ∧
    (fetchval testDriver stPoolOpen (.structured sqFixture) [] 0 none).2.2 =
      testDriver.exec
        { method := .fetchval, query := sqFixture.compiledLiteral,
          args := [], column := some 0, timeout := none } :=
  ⟨rfl, rfl⟩

/-- C2 (counterexample): the claim reads that close resets the instance
state so that a subsequent query operation may reconstruct the pool.  On
the concrete trace init → query → close → query, the pool slot is still
occupied after close, the second query constructs no pool, and it fails
acquiring from the closed pool instead of reconstructing. -/
theorem C2_close_not_reset_cex :
    ((close (fetchval testDriver stNoPool (.raw "SELECT 1") [] 0 none).1).1.pool
        ≠ none) ∧
    countPoolCreated (fetchval testDriver
        (close (fetchval testDriver stNoPool (.raw "SELECT 1") [] 0 none).1).1
        (.raw "SELECT 2") [] 0 none).2.1 = 0 ∧
    (fetchval testDriver
        (close (fetchval testDriver stNoPool (.raw "SELECT 1") [] 0 none).1).1
        (.raw "SELECT 2") [] 0 none).2.2 =
      .error .interfaceErrorPoolClosed :=
  ⟨by decide, by decide, rfl⟩

/-- C2 (amended): after close on an instance with an active pool, all
pooled connections are released and the pool is marked closed, but the
pool slot is not reset: a subsequent query operation does not reconstruct
the pool and instead fails acquiring from the closed pool. -/
theorem C2_close_releases_but_keeps_pool (st : PGState) (p : Pool)
    (drv : Driver) (q : Query) (args : List String) (col : Nat)
    (t : Option Nat) (hp : st.pool = some p) :
    (close st).1.pool = some { p with available := 0, closed := true } ∧
    countPoolCreated (fetchval drv (close st).1 q args col t).2.1 = 0 ∧
    (fetchval drv (close st).1 q args col t).2.2 =
      .error .interfaceErrorPoolClosed := by
  have hcl : (close st).1.pool =
      some { p with available := 0, closed := true } := by
    simp [close, hp]
  have hfv := fetchval_closed drv (close st).1 q args col t _ hcl rfl
  exact ⟨hcl, by rw [hfv]; exact countPoolCreated_normalize q, by rw [hfv]⟩

/-- Witness for the amended C2 statement at a concrete connected state. -/
theorem C2_close_releases_but_keeps_pool_witness :
    (close stPoolOpen).1.pool =
      some { poolOpen with available := 0, closed := true } ∧
    countPoolCreated (fetchval testDriver (close stPoolOpen).1
        (.raw "SELECT 1") [] 0 none).2.1 = 0 ∧
    (fetchval testDriver (close stPoolOpen).1
        (.raw "SELECT 1") [] 0 none).2.2 =
      .error .interfaceErrorPoolClosed :=
  C2_close_releases_but_keeps_pool stPoolOpen poolOpen testDriver
    (.raw "SELECT 1") [] 0 none rfl

/-- C3 (counterexample): the claim reads that the second of two
consecutive close calls logs a warning.  On the concrete trace where a
pool exists, the second close logs only the debug line again — the
warning branch is not taken, because the still-occupied pool slot is
truthy. -/
theorem C3_second_close_no_warning_cex :
    (close (close stPoolOpen).1).2 = [Event.debugPoolClosed] ∧
    Event.warnAlreadyClosed ∉ (close (close stPoolOpen).1).2 :=
  ⟨rfl, by decide⟩

/-- C3 (amended): calling close twice in a row succeeds and neither call
raises: the first call frees the pool (connections released, pool marked
closed); the second call does not log the warning — since the pool slot
still holds the closed pool it runs the driver close again and logs the
debug line again; close on an instance whose pool was never created logs
the warning and returns without error. -/
theorem C3_double_close_behaviour (st stN : PGState) (p : Pool)
    (hp : st.pool = some p) (hn : stN.pool = none) :
    (close st).2 = [Event.debugPoolClosed] ∧
    (close st).1.pool = some { p with available := 0, closed := true } ∧
    (close (close st).1).2 = [Event.debugPoolClosed] ∧
    Event.warnAlreadyClosed ∉ (close (close st).1).2 ∧
    close stN = (stN, [Event.warnAlreadyClosed]) := by
  have h1 : close st =
      ({ st with pool := some { p with available := 0, closed := true } },
       [Event.debugPoolClosed]) := by
    simp [close, hp]
  refine ⟨?_, ?_, ?_, ?_, ?_⟩
  · rw [h1]
  · rw [h1]
  · rw [h1]; simp [close]
  · rw [h1]; simp [close]
  · simp [close, hn]

/-- Witness for the amended C3 statement: a connected instance closed
twice, and an untouched fresh instance closed once. -/
theorem C3_double_close_behaviour_witness :
    (close stPoolOpen).2 = [Event.debugPoolClosed] ∧
    (close stPoolOpen).1.pool =
      some { poolOpen with available := 0, closed := true } ∧
    (close (close stPoolOpen).1).2 = [Event.debugPoolClosed] ∧
    Event.warnAlreadyClosed ∉ (close (close stPoolOpen).1).2 ∧
    close initialState = (initialState, [Event.warnAlreadyClosed]) :=
  C3_double_close_behaviour stPoolOpen initialState poolOpen rfl rfl

/-- C4 (counterexample): the claim reads that every query or DDL
operation attempted before init fails with NotInitializedError.  The code
defines no such error: on the fresh state, create_tables fails with the
AttributeError raised by accessing create_all on the unbound (None)
metadata, while fetchval does not fail at all when the driver accepts the
unbound (None) connection string — it silently constructs a pool from it
and executes the query. -/
theorem C4_no_not_initialized_error_cex :
    (create_tables testDriver initialState).2.2 =
      .error .attributeErrorNoneMetadata ∧
    (fetchval testDriver initialState (.raw "SELECT 1") [] 0 none).2.2 =
      .ok "ok" ∧
    (fetchval testDriver initialState (.raw "SELECT 1") [] 0 none).2.1 =
      [Event.poolCreated none,
       Event.driverExec
         { method := .fetchval, query := "SELECT 1", args := [],
           column := some 0, timeout := none }] :=
  ⟨rfl, rfl, rfl⟩

/-- C4 (amended): operations attempted before init do not fail with a
dedicated initialization-guard error (none exists in the code): DDL
operations fail with the AttributeError of the unbound (None) metadata,
and query operations do not fail fast — they attempt pool construction
from the unbound (None) connection string and proceed with execution when
the driver accepts it. -/
theorem C4_pre_init_behaviour (drv : Driver) (s : String)
    (args : List String) (col : Nat) (t : Option Nat) (p : Pool)
    (hcp : drv.createPool none = .ok p) (hc : p.closed = false)
    (ha : 0 < p.available) :
    (create_tables drv initialState).2.2 =
      .error .attributeErrorNoneMetadata ∧
    (drop_tables drv initialState).2.2 =
      .error .attributeErrorNoneMetadata ∧
    fetchval drv initialState (.raw s) args col t =
      ({ initialState with pool := some p },
       [Event.poolCreated none,
        Event.driverExec
          { method := .fetchval, query := s, args := args,
            column := some col, timeout := t }],
       drv.exec { method := .fetchval, query := s, args := args,
                  column := some col, timeout := t }) := by
  refine ⟨rfl, rfl, ?_⟩
  have h := fetchval_fresh drv initialState (.raw s) args col t p rfl hcp hc ha
  simpa [normalizeEvents, normalizeQuery] using h

/-- Witness for the amended C4 statement under the healthy test
environment. -/
theorem C4_pre_init_behaviour_witness :
    (create_tables testDriver initialState).2.2 =
      .error .attributeErrorNoneMetadata ∧
    (drop_tables testDriver initialState).2.2 =
      .error .attributeErrorNoneMetadata ∧
    fetchval testDriver initialState (.raw "SELECT 1") [] 0 none =
      ({ initialState with pool := some poolNoneDsn },
       [Event.poolCreated none,
        Event.driverExec
          { method := .fetchval, query := "SELECT 1", args := [],
            column := some 0, timeout := none }],
       testDriver.exec
         { method := .fetchval, query := "SELECT 1", args := [],
           column := some 0, timeout := none }) :=
  C4_pre_init_behaviour testDriver "SELECT 1" [] 0 none poolNoneDsn rfl rfl
    (by decide)

/-- C5: the connection pool is created lazily at most once — the first
query operation on a state with no pool constructs it from the bound
connection string (exactly one construction on its trace), and a second
query operation reuses the same pool without reconstruction. -/
theorem C5_pool_lazy_at_most_once (drv : Driver) (st : PGState)
    (q1 : Query) (a1 : List String) (c1 : Nat) (t1 : Option Nat)
    (q2 : Query) (a2 : List String) (t2 : Option Nat) (p : Pool)
    (hn : st.pool = none) (hcp : drv.createPool st.dsn = .ok p)
    (hc : p.closed = false) (ha : 0 < p.available) :
    countPoolCreated (fetchval drv st q1 a1 c1 t1).2.1 = 1 ∧
    Event.poolCreated st.dsn ∈ (fetchval drv st q1 a1 c1 t1).2.1 ∧
    (fetchval drv st q1 a1 c1 t1).1.pool = some p ∧
    countPoolCreated
      (fetch drv (fetchval drv st q1 a1 c1 t1).1 q2 a2 t2).2.1 = 0 ∧
    (fetch drv (fetchval drv st q1 a1 c1 t1).1 q2 a2 t2).1.pool = some p := by
  have h1 := fetchval_fresh drv st q1 a1 c1 t1 p hn hcp hc ha
  have hp1 : (fetchval drv st q1 a1 c1 t1).1.pool = some p := by rw [h1]
  have h2 := fetch_existing drv (fetchval drv st q1 a1 c1 t1).1 q2 a2 t2 p
    hp1 hc ha
  refine ⟨?_, ?_, hp1, ?_, ?_⟩
  · simp only [h1]
    rw [countPoolCreated_append, countPoolCreated_normalize q1]
    rfl
  · rw [h1]; simp
  · simp only [h2]
    rw [countPoolCreated_append, countPoolCreated_normalize q2]
    rfl
  · rw [h2]; exact hp1

/-- Witness for C5 on a concrete initialized state with no pool and the
healthy test environment. -/
theorem C5_pool_lazy_at_most_once_witness :
    countPoolCreated
      (fetchval testDriver stNoPool (.raw "SELECT 1") [] 0 none).2.1 = 1 ∧
    Event.poolCreated (some "postgres://db") ∈
      (fetchval testDriver stNoPool (.raw "SELECT 1") [] 0 none).2.1 ∧
    (fetchval testDriver stNoPool (.raw "SELECT 1") [] 0 none).1.pool =
      some poolOpen ∧
    countPoolCreated (fetch testDriver
      (fetchval testDriver stNoPool (.raw "SELECT 1") [] 0 none).1
      (.raw "SELECT 2") [] none).2.1 = 0 ∧
    (fetch testDriver
      (fetchval testDriver stNoPool (.raw "SELECT 1") [] 0 none).1
      (.raw "SELECT 2") [] none).1.pool = some poolOpen :=
  C5_pool_lazy_at_most_once testDriver stNoPool (.raw "SELECT 1") [] 0 none
    (.raw "SELECT 2") [] none poolOpen rfl rfl rfl (by decide)

/-- C6: the value-rendering rules of the literalization path, applied in
order — integers render as their decimal text form; any other non-string
value is first converted to its text form; the base literal escaper of
the dialect is then applied; a byte-sequence output of the escaper is
decoded with the declared text encoding of the dialect — coincide with
the behaviour of the processing closure translated from the source. -/
theorem C6_literal_render_rules (d : SADialect) (v : SAValue) :
    stringLiteralProcess d v = specLiteralRender d v := by
  cases v <;> rfl

/-- C7: each of the four query operations first renders a non-raw-text
query via the Literalizer into raw text, then delegates to the
corresponding driver call using that normalized text, the same positional
arguments and the same timeout, within a scoped connection from the
pool. -/
theorem C7_normalize_and_delegate (drv : Driver) (st : PGState) (q : Query)
    (args : List String) (col : Nat) (t : Option Nat) (p : Pool)
    (hp : st.pool = some p) (hc : p.closed = false) (ha : 0 < p.available) :
    fetchval drv st q args col t =
      (st,
       normalizeEvents q ++ [Event.driverExec
         { method := .fetchval, query := normalizeQuery q, args := args,
           column := some col, timeout := t }],
       drv.exec { method := .fetchval, query := normalizeQuery q,
                  args := args, column := some col, timeout := t }) ∧
    fetch drv st q args t =
      (st,
       normalizeEvents q ++ [Event.driverExec
         { method := .fetch, query := normalizeQuery q, args := args,
           column := none, timeout := t }],
       drv.exec { method := .fetch, query := normalizeQuery q,
                  args := args, column := none, timeout := t }) ∧
    fetchrow drv st q args t =
      (st,
       normalizeEvents q ++ [Event.driverExec
         { method := .fetchrow, query := normalizeQuery q, args := args,
           column := none, timeout := t }],
       drv.exec { method := .fetchrow, query := normalizeQuery q,
                  args := args, column := none, timeout := t }) ∧
    execute drv st q args t =
      (st,
       normalizeEvents q ++ [Event.driverExec
         { method := .execute, query := normalizeQuery q, args := args,
           column := none, timeout := t }],
       drv.exec { method := .execute, query := normalizeQuery q,
                  args := args, column := none, timeout := t }) :=
  ⟨fetchval_existing drv st q args col t p hp hc ha,
   fetch_existing drv st q args t p hp hc ha,
   fetchrow_existing drv st q args t p hp hc ha,
   execute_existing drv st q args t p hp hc ha⟩

/-- Witness for C7 on a connected state with a structured query, so both
the literalization step and the delegation are exercised. -/
theorem C7_normalize_and_delegate_witness :
    fetchval testDriver stPoolOpen (.structured sqFixture) ["x"] 0 (some 5) =
      (stPoolOpen,
       normalizeEvents (.structured sqFixture) ++ [Event.driverExec
         { method := .fetchval, query := normalizeQuery (.structured sqFixture),
           args := ["x"], column := some 0, timeout := some 5 }],
       testDriver.exec
         { method := .fetchval, query := normalizeQuery (.structured sqFixture),
           args := ["x"], column := some 0, timeout := some 5 }) ∧
    fetch testDriver stPoolOpen (.structured sqFixture) ["x"] (some 5) =
      (stPoolOpen,
       normalizeEvents (.structured sqFixture) ++ [Event.driverExec
         { method := .fetch, query := normalizeQuery (.structured sqFixture),
           args := ["x"], column := none, timeout := some 5 }],
       testDriver.exec
         { method := .fetch, query := normalizeQuery (.structured sqFixture),
           args := ["x"], column := none, timeout := some 5 }) ∧
    fetchrow testDriver stPoolOpen (.structured sqFixture) ["x"] (some 5) =
      (stPoolOpen,
       normalizeEvents (.structured sqFixture) ++ [Event.driverExec
         { method := .fetchrow, query := normalizeQuery (.structured sqFixture),
           args := ["x"], column := none, timeout := some 5 }],
       testDriver.exec
         { method := .fetchrow, query := normalizeQuery (.structured sqFixture),
           args := ["x"], column := none, timeout := some 5 }) ∧
    execute testDriver stPoolOpen (.structured sqFixture) ["x"] (some 5) =
      (stPoolOpen,
       normalizeEvents (.structured sqFixture) ++ [Event.driverExec
         { method := .execute, query := normalizeQuery (.structured sqFixture),
           args := ["x"], column := none, timeout := some 5 }],
       testDriver.exec
         { method := .execute, query := normalizeQuery (.structured sqFixture),
           args := ["x"], column := none, timeout := some 5 }) :=
  C7_normalize_and_delegate testDriver stPoolOpen (.structured sqFixture)
    ["x"] 0 (some 5) poolOpen rfl rfl (by decide)

/-- C8: init binds state and immediately performs table creation, and is
not idempotent in side effects — every call to init records exactly one
DDL creation on its trace, so two calls record two. -/
theorem C8_init_runs_create_tables_once (drv : Driver) (st : PGState)
    (dsn1 dsn2 : String) (md1 md2 : MetaData) :
    countCreateTables (init drv st dsn1 md1).2.1 = 1 ∧
    countCreateTables (init drv (init drv st dsn1 md1).1 dsn2 md2).2.1 = 1 ∧
    countCreateTables ((init drv st dsn1 md1).2.1 ++
      (init drv (init drv st dsn1 md1).1 dsn2 md2).2.1) = 2 := by
  refine ⟨init_trace_single drv st dsn1 md1,
    init_trace_single drv (init drv st dsn1 md1).1 dsn2 md2, ?_⟩
  rw [countCreateTables_append, init_trace_single, init_trace_single]

/-- C9: the connection checked out of an open pool for an operation is
returned on every exit path — whatever the body or the driver call does,
including failure, the pool of the instance afterwards is exactly the
pool before, its available-connection count restored. -/
theorem C9_connection_always_restored (drv : Driver) (st : PGState)
    (body : List Event × Except PGError String) (q : Query)
    (args : List String) (col : Nat) (t : Option Nat) (p : Pool)
    (hp : st.pool = some p) (hc : p.closed = false) (ha : 0 < p.available) :
    (connection drv st body).1.pool = some p ∧
    (fetchval drv st q args col t).1.pool = some p ∧
    (fetch drv st q args t).1.pool = some p ∧
    (fetchrow drv st q args t).1.pool = some p ∧
    (execute drv st q args t).1.pool = some p := by
  refine ⟨?_, ?_, ?_, ?_, ?_⟩
  · rw [connection_existing drv st body p hp hc ha]; exact hp
  · rw [fetchval_existing drv st q args col t p hp hc ha]; exact hp
  · rw [fetch_existing drv st q args t p hp hc ha]; exact hp
  · rw [fetchrow_existing drv st q args t p hp hc ha]; exact hp
  · rw [execute_existing drv st q args t p hp hc ha]; exact hp

/-- Witness for C9 under an environment whose every query execution
fails, exercising the exceptional exit path of the scope. -/
theorem C9_connection_always_restored_witness :
    (connection failingExecDriver stPoolOpen
        ([], Except.error (PGError.driver "boom"))).1.pool = some poolOpen ∧
    (fetchval failingExecDriver stPoolOpen
        (.raw "SELECT 1") [] 0 none).1.pool = some poolOpen ∧
    (fetch failingExecDriver stPoolOpen
        (.raw "SELECT 1") [] none).1.pool = some poolOpen ∧
    (fetchrow failingExecDriver stPoolOpen
        (.raw "SELECT 1") [] none).1.pool = some poolOpen ∧
    (execute failingExecDriver stPoolOpen
        (.raw "SELECT 1") [] none).1.pool = some poolOpen :=
  C9_connection_always_restored failingExecDriver stPoolOpen
    ([], .error (.driver "boom")) (.raw "SELECT 1") [] 0 none poolOpen
    rfl rfl (by decide)

/-- C10: the synchronous engine is cached for the lifetime of the
instance and never invalidated — after a second init with a different
connection string, the bound connection string has changed but the cached
engine still records the first one, and both create_tables and
drop_tables issue their DDL against that stale engine. -/
theorem C10_engine_cached_stale (drv : Driver) (st : PGState)
    (dsn1 dsn2 : String) (md1 md2 : MetaData)
    (he : st.engine = none) (hne : dsn1 ≠ dsn2) :
    (init drv (init drv st dsn1 md1).1 dsn2 md2).1.dsn = some dsn2 ∧
    (init drv (init drv st dsn1 md1).1 dsn2 md2).1.engine =
      some { dsn := dsn1 } ∧
    (create_tables drv (init drv (init drv st dsn1 md1).1 dsn2 md2).1).2.1 =
      [Event.createTablesDDL dsn1] ∧
    (drop_tables drv (init drv (init drv st dsn1 md1).1 dsn2 md2).1).2.1 =
      [Event.dropTablesDDL dsn1] ∧
    some dsn1 ≠ (init drv (init drv st dsn1 md1).1 dsn2 md2).1.dsn := by
  have h1 := init_state_fresh_engine drv st dsn1 md1 he
  have he1 : (init drv st dsn1 md1).1.engine =
      some ({ dsn := dsn1 } : Engine) := by rw [h1]
  have h2 := init_state_cached_engine drv (init drv st dsn1 md1).1 dsn2 md2
    { dsn := dsn1 } he1
  have hd2 : (init drv (init drv st dsn1 md1).1 dsn2 md2).1.dsn =
      some dsn2 := by rw [h2]
  have he2 : (init drv (init drv st dsn1 md1).1 dsn2 md2).1.engine =
      some ({ dsn := dsn1 } : Engine) := by rw [h2]; exact he1
  have hm2 : (init drv (init drv st dsn1 md1).1 dsn2 md2).1.metadata =
      some md2 := by rw [h2]
  refine ⟨hd2, he2, ?_, ?_, ?_⟩
  · exact create_tables_trace drv _ md2 { dsn := dsn1 } hm2 he2
  · exact drop_tables_trace drv _ md2 { dsn := dsn1 } hm2 he2
  · rw [hd2]
    simp [hne]

/-- Witness for C10 at two concrete, distinct connection strings. -/
theorem C10_engine_cached_stale_witness :
    (init testDriver (init testDriver initialState "postgres://db1"
        { id := 0 }).1 "postgres://db2" { id := 1 }).1.dsn =
      some "postgres://db2" ∧
    (init testDriver (init testDriver initialState "postgres://db1"
        { id := 0 }).1 "postgres://db2" { id := 1 }).1.engine =
      some { dsn := "postgres://db1" } ∧
    (create_tables testDriver (init testDriver (init testDriver initialState
        "postgres://db1" { id := 0 }).1 "postgres://db2" { id := 1 }).1).2.1 =
      [Event.createTablesDDL "postgres://db1"] ∧
    (drop_tables testDriver (init testDriver (init testDriver initialState
        "postgres://db1" { id := 0 }).1 "postgres://db2" { id := 1 }).1).2.1 =
      [Event.dropTablesDDL "postgres://db1"] ∧
    some "postgres://db1" ≠ (init testDriver (init testDriver initialState
        "postgres://db1" { id := 0 }).1 "postgres://db2" { id := 1 }).1.dsn :=
  C10_engine_cached_stale testDriver initialState "postgres://db1"
    "postgres://db2" { id := 0 } { id := 1 } rfl (by decide)

end Aqtlib
